import Mathlib

/-!
Verification of the traffic-collection pipeline in
`collect_traffic_github.py` (Route-Optimizer repository).

The script is a single linear pipeline: fetch two JSON payloads from a
traffic API, flatten them into tabular records, tag every record of a run
with one capture timestamp, and append the batches to two SQLite tables.

We shallowly embed the Python code: JSON/Python values become the
inductive `JVal` (Python `None` and JSON `null` are both `JVal.null`,
which is exactly how `json.loads` represents them), dictionary/`in`/
subscript/iteration operations become partial functions returning
`Except PyErr`, and the DataFrame / SQLite state becomes explicit record
lists and an explicit database state.
-/

/-- A parsed JSON value as held by the Python process after
`response.json()`.  JSON `null` parses to Python `None`, so `null` below
stands for both.  JSON numbers are modelled as integers (the claims under
study treat numbers as opaque payloads; only their printed form matters,
and Python prints an `int` as its exact decimal numeral).  Objects are
association lists; a Python `dict` cannot hold a duplicate key, so the
lists we quantify over have distinct keys and `List.lookup` is the
dictionary lookup. -/
inductive JVal where
  | null : JVal
  | bool : Bool → JVal
  | num : Int → JVal
  | str : String → JVal
  | arr : List JVal → JVal
  | obj : List (String × JVal) → JVal

/-- Python exceptions that the embedded fragments can raise. -/
inductive PyErr where
  | attributeError : String → PyErr
  | typeError : String → PyErr
  | keyError : String → PyErr
  | connectionError : String → PyErr
deriving DecidableEq, Repr

/-- Python truthiness (`bool(x)`) for the values `JVal` models:
`None`/`False`/`0`/`""` and empty containers are falsy. -/
def JVal.truthy : JVal → Bool
  | .null => false
  | .bool b => b
  | .num n => n != 0
  | .str s => s != ""
  | .arr xs => !xs.isEmpty
  | .obj fs => !fs.isEmpty

/-- Python `d.get(k, default)`: dictionary lookup with a default.  Raises
`AttributeError` when the receiver is not a dict (no other `JVal` has a
`.get` method). -/
def pyGet (d : JVal) (k : String) (default : JVal) : Except PyErr JVal :=
  match d with
  | .obj fs => .ok ((fs.lookup k).getD default)
  | _ => .error (.attributeError "get")

/-- Python substring test `k in s` (non-overlapping occurrence count via
`splitOn`; the empty needle is in every string). -/
def strContains (s k : String) : Bool :=
  if k = "" then true else (s.splitOn k).length ≥ 2

/-- Python membership `k in d` for a string key `k`: key test on a dict,
element test on a list, substring test on a string; `TypeError`
otherwise. -/
def pyContains (d : JVal) (k : String) : Except PyErr Bool :=
  match d with
  | .obj fs => .ok (fs.any (fun kv => kv.1 == k))
  | .arr xs =>
    .ok (xs.any (fun x => match x with | .str s => s == k | _ => false))
  | .str s => .ok (strContains s k)
  | _ => .error (.typeError "argument of type is not iterable")

/-- Python subscript `d[k]` with a string key: dict lookup raising
`KeyError` when missing, `TypeError` on every non-dict value. -/
def pySubscript (d : JVal) (k : String) : Except PyErr JVal :=
  match d with
  | .obj fs =>
    match fs.lookup k with
    | some v => .ok v
    | none => .error (.keyError k)
  | _ => .error (.typeError "not subscriptable")

/-- Python iteration `for x in d`: a list yields its elements, a dict its
keys, a string its one-character strings; `TypeError` otherwise. -/
def pyIter : JVal → Except PyErr (List JVal)
  | .arr xs => .ok xs
  | .obj fs => .ok (fs.map (fun kv => .str kv.1))
  | .str s => .ok (s.toList.map (fun c => .str (String.mk [c])))
  | _ => .error (.typeError "object is not iterable")

/-! ### Python `str()` of the coordinate list

`record['geometry'] = str(coords)` prints the list of 2-tuples in
Python's literal notation, e.g. `[(101, 3), (None, None)]`.  We build the
printed form over `List Char` and wrap it into a `String` at the end. -/

/-- Little-endian decimal digits of `n`, with explicit fuel so the
definition is structural (and evaluates inside the kernel). -/
def natDigitsRev (fuel n : Nat) : List Nat :=
  match fuel with
  | 0 => []
  | fuel' + 1 => if n = 0 then [] else n % 10 :: natDigitsRev fuel' (n / 10)

/-- Decimal numeral of a natural number (Python `repr` of a nonnegative
`int`). -/
def natRepr (n : Nat) : List Char :=
  if n = 0 then ['0'] else ((natDigitsRev (n + 1) n).map Nat.digitChar).reverse

/-- Python `repr` of an `int`, including the sign. -/
def intRepr (n : Int) : List Char :=
  if n < 0 then '-' :: natRepr n.natAbs else natRepr n.natAbs

/-- Interleave a separator between printed pieces (`", ".join`). -/
def joinSep (sep : List Char) : List (List Char) → List Char
  | [] => []
  | [x] => x
  | x :: y :: xs => x ++ sep ++ joinSep sep (y :: xs)

mutual
/-- Python `repr` of a value appearing inside a printed container.
`None`/`True`/`False`/ints print as their literals; strings print
between single quotes (escape sequences inside the string are not
modelled — the geometry claims only print numbers and `None`);
lists and dicts recurse. -/
def pyRepr : JVal → List Char
  | .null => ['N', 'o', 'n', 'e']
  | .bool true => ['T', 'r', 'u', 'e']
  | .bool false => ['F', 'a', 'l', 's', 'e']
  | .num n => intRepr n
  | .str s => '\'' :: s.toList ++ ['\'']
  | .arr xs => '[' :: joinSep [',', ' '] (pyReprList xs) ++ [']']
  | .obj fs => '\x7b' :: joinSep [',', ' '] (pyReprFields fs) ++ ['\x7d']

/-- The `repr` of each element of a list. -/
def pyReprList : List JVal → List (List Char)
  | [] => []
  | x :: xs => pyRepr x :: pyReprList xs

/-- The `repr` of each `'key': value` entry of a dict. -/
def pyReprFields : List (String × JVal) → List (List Char)
  | [] => []
  | kv :: fs => ('\'' :: kv.1.toList ++ ['\'', ':', ' '] ++ pyRepr kv.2) :: pyReprFields fs
end

/-- Python `repr` of one coordinate 2-tuple: `(lng, lat)`. -/
def pairRepr (p : JVal × JVal) : List Char :=
  '(' :: pyRepr p.1 ++ [',', ' '] ++ pyRepr p.2 ++ [')']

/-- Characters of `str(coords)` for a list of 2-tuples. -/
def serializeCoordsL (coords : List (JVal × JVal)) : List Char :=
  '[' :: joinSep [',', ' '] (coords.map pairRepr) ++ [']']

/-- Python `str(coords)`: the flat text serialization stored in the `geometry`
field. -/
def serializeCoords (coords : List (JVal × JVal)) : String :=
  String.mk (serializeCoordsL coords)

/-! ### A parser for the serialized geometry

Reads the printed form back into the ordered list of `(lng, lat)` pairs.
It handles the atoms the geometry printer emits for provider data —
`None` and decimal integers — which is all the round-trip property
needs. -/

/-- Split a character list into its leading run of decimal digits and the
rest. -/
def takeDigits : List Char → List Char × List Char
  | [] => ([], [])
  | c :: cs =>
    if c.isDigit then
      let (ds, r) := takeDigits cs
      (c :: ds, r)
    else ([], c :: cs)

/-- Numeric value of a big-endian list of decimal digit characters. -/
def digitsToNat (ds : List Char) : Nat :=
  Nat.ofDigits 10 ((ds.map (fun c => c.toNat - 48)).reverse)

/-- Parse one atom (`None` or a signed decimal integer) off the front of
the input, returning the value and the unconsumed rest. -/
def parseAtom (cs : List Char) : Option (JVal × List Char) :=
  if cs.take 4 = ['N', 'o', 'n', 'e'] then some (.null, cs.drop 4)
  else if cs.head? = some '-' then
    match takeDigits cs.tail with
    | ([], _) => none
    | (ds, r) => some (.num (-(digitsToNat ds : Int)), r)
  else
    match takeDigits cs with
    | ([], _) => none
    | (ds, r) => some (.num (digitsToNat ds : Int), r)

/-- Parse one `"(a, b)"` tuple off the front of the input. -/
def parsePair (cs : List Char) : Option ((JVal × JVal) × List Char) :=
  match cs with
  | '(' :: cs1 =>
    match parseAtom cs1 with
    | none => none
    | some (a, cs2) =>
      match cs2 with
      | ',' :: ' ' :: cs3 =>
        match parseAtom cs3 with
        | none => none
        | some (b, cs4) =>
          match cs4 with
          | ')' :: cs5 => some ((a, b), cs5)
          | _ => none
      | _ => none
  | _ => none

theorem takeDigits_sndLength : ∀ cs : List Char, (takeDigits cs).2.length ≤ cs.length := by
  intro cs
  induction cs with
  | nil => simp [takeDigits]
  | cons c cs ih =>
    simp only [takeDigits]
    split
    · simpa using Nat.le_succ_of_le ih
    · simp

theorem parseAtom_length {cs rest : List Char} {v : JVal}
    (h : parseAtom cs = some (v, rest)) : rest.length ≤ cs.length := by
  unfold parseAtom at h
  split at h
  · simp only [Option.some.injEq, Prod.mk.injEq] at h
    obtain ⟨-, rfl⟩ := h
    simp
  · split at h
    · rename_i hm
      split at h
      · exact absurd h (by simp)
      · rename_i ds r hds heq
        simp only [Option.some.injEq, Prod.mk.injEq] at h
        obtain ⟨-, rfl⟩ := h
        have h1 : r.length ≤ cs.tail.length := by
          have := takeDigits_sndLength cs.tail
          rw [heq] at this
          exact this
        calc r.length ≤ cs.tail.length := h1
          _ ≤ cs.length := by simp [List.length_tail]
    · split at h
      · exact absurd h (by simp)
      · rename_i ds r hds heq
        simp only [Option.some.injEq, Prod.mk.injEq] at h
        obtain ⟨-, rfl⟩ := h
        have := takeDigits_sndLength cs
        rw [heq] at this
        exact this

theorem parsePair_length {cs rest : List Char} {p : JVal × JVal}
    (h : parsePair cs = some (p, rest)) : rest.length < cs.length := by
  unfold parsePair at h
  split at h
  · rename_i cs1
    split at h
    · exact absurd h (by simp)
    · rename_i a cs2 h1
      split at h
      · rename_i cs3
        split at h
        · exact absurd h (by simp)
        · rename_i b cs4 h2
          split at h
          · rename_i cs5
            simp only [Option.some.injEq, Prod.mk.injEq] at h
            obtain ⟨-, rfl⟩ := h
            have e1 := parseAtom_length h1
            have e2 := parseAtom_length h2
            simp only [List.length_cons] at *
            omega
          · exact absurd h (by simp)
      · exact absurd h (by simp)
  · exact absurd h (by simp)

/-- Parse one or more `", "`-separated tuples off the front of the
input: after each tuple, a `", "` separator continues the list. -/
def parsePairs (cs : List Char) : Option (List (JVal × JVal) × List Char) :=
  match _hp : parsePair cs with
  | none => none
  | some (p, rest) =>
    if rest.take 2 = [',', ' '] then
      match parsePairs (rest.drop 2) with
      | none => none
      | some (ps, r) => some (p :: ps, r)
    else some ([p], rest)
termination_by cs.length
decreasing_by
  have h1 := parsePair_length _hp
  have h2 := List.length_drop 2 rest
  omega

/-- Parse the full `str(coords)` form: `[]`, or `[` tuples `]`. -/
def parseCoordsL (cs : List Char) : Option (List (JVal × JVal)) :=
  match cs with
  | '[' :: rest =>
    if rest = [']'] then some []
    else
      match parsePairs rest with
      | some (ps, r) => if r = [']'] then some ps else none
      | none => none
  | _ => none

/-- Re-parse a serialized geometry string into its ordered list of
`(lng, lat)` pairs. -/
def parseCoords (s : String) : Option (List (JVal × JVal)) :=
  parseCoordsL s.toList

/-! ### The record normalizers

`parse_traffic_flow_to_dataframe` / `parse_incidents_to_dataframe`
(lines 51-112 of `collect_traffic_github.py`).  A DataFrame of records
becomes a `List` of record structures; the Python function returns
`None` or a DataFrame, and can raise on malformed input, hence the type
`Except PyErr (Option (List _))`. -/

/-- One row produced by `parse_traffic_flow_to_dataframe`.  `geometry` is
`none` when the Python record dict was built without a `'geometry'`
key. -/
structure FlowRecord where
  location_description : JVal
  speed : JVal
  speed_limit : JVal
  jam_factor : JVal
  confidence : JVal
  free_flow_speed : JVal
  traversability : JVal
  geometry : Option String

/-- One row produced by `parse_incidents_to_dataframe`. -/
structure IncidentRecord where
  incident_id : JVal
  type : JVal
  description : JVal
  criticality : JVal
  start_time : JVal
  geometry : Option String

/-- The body of the `for point in link['points']` loop: one appended
coordinate pair `(point.get('lng'), point.get('lat'))`. -/
def pointPair (point : JVal) : Except PyErr (JVal × JVal) := do
  let lng ← pyGet point "lng" .null
  let lat ← pyGet point "lat" .null
  pure (lng, lat)

/-- The `for link in location['shape']['links']` loop, carrying the
`coords` accumulator: links with a `'points'` key contribute their
points' pairs in order, links without one contribute nothing. -/
def collectCoords (links : List JVal) (acc : List (JVal × JVal)) :
    Except PyErr (List (JVal × JVal)) :=
  match links with
  | [] => .ok acc
  | link :: rest => do
    let hasPoints ← pyContains link "points"
    if hasPoints then
      let points ← pySubscript link "points"
      let ptList ← pyIter points
      let pairs ← ptList.mapM pointPair
      collectCoords rest (acc ++ pairs)
    else
      collectCoords rest acc

/-- The geometry block the source repeats verbatim in both normalizers
(lines 71-78 and 102-108): when `'shape' in location and 'links' in
location['shape']`, flatten all links' points into `coords` and store
`str(coords)`; otherwise leave the record without a `geometry` key. -/
def extractGeometry (location : JVal) : Except PyErr (Option String) := do
  let hasShape ← pyContains location "shape"
  if hasShape then
    let shape ← pySubscript location "shape"
    let hasLinks ← pyContains shape "links"
    if hasLinks then
      let links ← pySubscript shape "links"
      let linkList ← pyIter links
      let coords ← collectCoords linkList []
      pure (some (serializeCoords coords))
    else
      pure none
  else
    pure none

/-- The body of the `for result in traffic_data['results']` loop: one
flow record. -/
def parseFlowRecord (result : JVal) : Except PyErr FlowRecord := do
  let location ← pyGet result "location" (.obj [])
  let current_flow ← pyGet result "currentFlow" (.obj [])
  let location_description ← pyGet location "description" (.str "")
  let speed ← pyGet current_flow "speed" .null
  let speed_limit ← pyGet current_flow "speedLimit" .null
  let jam_factor ← pyGet current_flow "jamFactor" .null
  let confidence ← pyGet current_flow "confidence" .null
  let free_flow_speed ← pyGet current_flow "freeFlowSpeed" .null
  let traversability ← pyGet current_flow "traversability" (.str "")
  let geometry ← extractGeometry location
  pure { location_description, speed, speed_limit, jam_factor,
         confidence, free_flow_speed, traversability, geometry }

/-- The `records` accumulation loop of the flow normalizer, in source
order. -/
def parseFlowRecords : List JVal → Except PyErr (List FlowRecord)
  | [] => .ok []
  | r :: rest => do
    let record ← parseFlowRecord r
    let records ← parseFlowRecords rest
    pure (record :: records)

/-- Source `parse_traffic_flow_to_dataframe(traffic_data)` (lines 51-82). -/
def parse_traffic_flow_to_dataframe (traffic_data : JVal) :
    Except PyErr (Option (List FlowRecord)) := do
  if !traffic_data.truthy then
    pure none
  else
    let hasResults ← pyContains traffic_data "results"
    if !hasResults then
      pure none
    else
      let results ← pySubscript traffic_data "results"
      let resultList ← pyIter results
      let records ← parseFlowRecords resultList
      pure (some records)

/-- The body of the `for incident in incidents_data['results']` loop:
one incident record. -/
def parseIncidentRecord (incident : JVal) : Except PyErr IncidentRecord := do
  let location ← pyGet incident "location" (.obj [])
  let incident_details ← pyGet incident "incidentDetails" (.obj [])
  let incident_id ← pyGet incident "incidentId" (.str "")
  let type ← pyGet incident_details "type" (.str "")
  let descriptionObj ← pyGet incident_details "description" (.obj [])
  let description ← pyGet descriptionObj "value" (.str "")
  let criticality ← pyGet incident_details "criticality" (.str "")
  let start_time ← pyGet incident_details "startTime" (.str "")
  let geometry ← extractGeometry location
  pure { incident_id, type, description, criticality, start_time, geometry }

/-- The `records` accumulation loop of the incident normalizer, in
source order. -/
def parseIncidentRecords : List JVal → Except PyErr (List IncidentRecord)
  | [] => .ok []
  | r :: rest => do
    let record ← parseIncidentRecord r
    let records ← parseIncidentRecords rest
    pure (record :: records)

/-- Source `parse_incidents_to_dataframe(incidents_data)` (lines 84-112). -/
def parse_incidents_to_dataframe (incidents_data : JVal) :
    Except PyErr (Option (List IncidentRecord)) := do
  if !incidents_data.truthy then
    pure none
  else
    let hasResults ← pyContains incidents_data "results"
    if !hasResults then
      pure none
    else
      let results ← pySubscript incidents_data "results"
      let resultList ← pyIter results
      let records ← parseIncidentRecords resultList
      pure (some records)

/-! ### Timestamp enrichment, persistence, fetch and the run driver -/

/-- The capture instant `datetime.now()` taken once at the start of
`main` (line 142). -/
structure Timestamp where
  year : Nat
  month : Nat
  day : Nat
  hour : Nat
  minute : Nat
  second : Nat
deriving DecidableEq, Repr

/-- The calendar date `timestamp.date()`. -/
structure DateOnly where
  year : Nat
  month : Nat
  day : Nat
deriving DecidableEq, Repr

def Timestamp.dateOnly (t : Timestamp) : DateOnly :=
  ⟨t.year, t.month, t.day⟩

/-- The seven full English weekday names, Monday first, as produced by
`strftime('%A')` in the C locale. -/
def weekdayNames : List String :=
  ["Monday", "Tuesday", "Wednesday", "Thursday", "Friday", "Saturday",
   "Sunday"]

/-- Zeller's congruence: 0 = Saturday, 1 = Sunday, 2 = Monday, … for a
Gregorian date. -/
def zeller (y m d : Nat) : Nat :=
  let y' := if m ≤ 2 then y - 1 else y
  let m' := if m ≤ 2 then m + 12 else m
  (d + 13 * (m' + 1) / 5 + y' % 100 + y' % 100 / 4 + y' / 100 / 4 +
      5 * (y' / 100)) % 7

/-- Python `timestamp.strftime('%A')`: the full English weekday name of the
instant. -/
def strftimeA (t : Timestamp) : String :=
  weekdayNames.getD ((zeller t.year t.month t.day + 5) % 7) ""

/-- A record after `main` added the four enrichment columns
(lines 157-169): every row of one batch receives the values derived from
the single run timestamp. -/
structure Enriched (α : Type) where
  base : α
  timestamp : Timestamp
  hour : Nat
  day_of_week : String
  date : DateOnly

/-- The per-row effect of the four column assignments
`df['timestamp'] = timestamp; df['hour'] = timestamp.hour; …`. -/
def enrichRecord (t : Timestamp) (r : α) : Enriched α :=
  { base := r, timestamp := t, hour := t.hour, day_of_week := strftimeA t,
    date := t.dateOnly }

/-- Lines 157-162: the flow batch is enriched whenever it is not `None`
(also when it has zero rows). -/
def enrichFlowBatch (t : Timestamp) :
    Option (List FlowRecord) → Option (List (Enriched FlowRecord))
  | none => none
  | some rows => some (rows.map (enrichRecord t))

/-- Lines 164-169: the incident batch is enriched only when it is not
`None` and nonempty.  When it is empty the source skips the column
assignments; the batch has no rows, so the resulting row list is `[]`
either way. -/
def enrichIncidentBatch (t : Timestamp) :
    Option (List IncidentRecord) → Option (List (Enriched IncidentRecord))
  | none => none
  | some rows =>
    if rows.length > 0 then some (rows.map (enrichRecord t)) else some []

/-- One SQLite table: the column list fixed at creation and the stored
rows. -/
structure Table (α : Type) where
  cols : List String
  rows : List α

/-- The on-disk database `traffic_historical.db`: each table is `none`
until first created. -/
structure TrafficDB where
  traffic_flow : Option (Table (Enriched FlowRecord))
  traffic_incidents : Option (Table (Enriched IncidentRecord))

/-- The base columns every flow record dict carries, in insertion
order. -/
def flowBaseCols : List String :=
  ["location_description", "speed", "speed_limit", "jam_factor",
   "confidence", "free_flow_speed", "traversability"]

/-- The base columns every incident record dict carries, in insertion
order. -/
def incidentBaseCols : List String :=
  ["incident_id", "type", "description", "criticality", "start_time"]

/-- The four columns `main` appends to a non-skipped batch. -/
def enrichmentCols : List String :=
  ["timestamp", "hour", "day_of_week", "date"]

/-- Columns of the flow DataFrame handed to `to_sql`: pandas takes the
union of the record dicts' keys in first-appearance order, so `geometry`
appears exactly when some record carries it, after the base fields and
before the enrichment columns. -/
def flowCols (rows : List (Enriched FlowRecord)) : List String :=
  flowBaseCols ++
    (if rows.any (fun r => r.base.geometry.isSome) then ["geometry"] else [])
      ++ enrichmentCols

/-- Columns of the incident DataFrame handed to `to_sql`. -/
def incidentCols (rows : List (Enriched IncidentRecord)) : List String :=
  incidentBaseCols ++
    (if rows.any (fun r => r.base.geometry.isSome) then ["geometry"] else [])
      ++ enrichmentCols

/-- Source `save_to_sqlite(flow_df, incidents_df, db_name)` (lines 114-138).
For each batch that is not `None` and nonempty, the source asks
`sqlite_master` whether the target table exists; `to_sql` is then called
with `if_exists='replace'` when it does not (creating the table from the
DataFrame's columns and writing all rows) and `if_exists='append'` when
it does (appending all rows under the existing schema). -/
def save_to_sqlite (flow_df : Option (List (Enriched FlowRecord)))
    (incidents_df : Option (List (Enriched IncidentRecord)))
    (db : TrafficDB) : TrafficDB :=
  let db1 :=
    match flow_df with
    | none => db
    | some rows =>
      if rows.length > 0 then
        match db.traffic_flow with
        | none => { db with traffic_flow := some ⟨flowCols rows, rows⟩ }
        | some t =>
          { db with traffic_flow := some ⟨t.cols, t.rows ++ rows⟩ }
      else db
  match incidents_df with
  | none => db1
  | some rows =>
    if rows.length > 0 then
      match db1.traffic_incidents with
      | none =>
        { db1 with traffic_incidents := some ⟨incidentCols rows, rows⟩ }
      | some t =>
        { db1 with traffic_incidents := some ⟨t.cols, t.rows ++ rows⟩ }
    else db1

/-- What the network produced for one `requests.get` call: either a
raised exception (DNS failure, connection refused, …) or an HTTP
response with a status code and a JSON body. -/
structure HttpResponse where
  status_code : Nat
  body : JVal

/-- Source `fetch_traffic_flow(bbox, api_key)` (lines 18-33), as a function of
the network outcome.  Returns the Python result (`response.json()` on
status 200, `None` otherwise) together with the lines printed.  The
source wraps `requests.get` in no `try`/`except`, so a raised network
error propagates to the caller. -/
def fetch_traffic_flow (net : Except PyErr HttpResponse) :
    Except PyErr JVal × List String :=
  match net with
  | .error e => (.error e, ["Fetching traffic flow data..."])
  | .ok r =>
    if r.status_code = 200 then
      (.ok r.body, ["Fetching traffic flow data..."])
    else
      (.ok .null,
       ["Fetching traffic flow data...", "Error: " ++ toString r.status_code])

/-- Source `fetch_traffic_incidents(bbox, api_key)` (lines 35-49): same shape,
but the non-200 branch prints no diagnostic. -/
def fetch_traffic_incidents (net : Except PyErr HttpResponse) :
    Except PyErr JVal × List String :=
  match net with
  | .error e => (.error e, ["Fetching traffic incidents..."])
  | .ok r =>
    if r.status_code = 200 then
      (.ok r.body, ["Fetching traffic incidents..."])
    else
      (.ok .null, ["Fetching traffic incidents..."])

/-- Source `main()` (lines 140-173) as a function of the capture instant, the
two network outcomes, and the database state: fetch both payloads, parse
both, enrich both with the single timestamp, save both.  Any uncaught
Python exception surfaces as `.error`. -/
def run_main (t : Timestamp) (flowNet incidentsNet : Except PyErr HttpResponse)
    (db : TrafficDB) : Except PyErr TrafficDB := do
  let flow_data ← (fetch_traffic_flow flowNet).1
  let incidents_data ← (fetch_traffic_incidents incidentsNet).1
  let flow_df ← parse_traffic_flow_to_dataframe flow_data
  let incidents_df ← parse_incidents_to_dataframe incidents_data
  let flow_edf := enrichFlowBatch t flow_df
  let incidents_edf := enrichIncidentBatch t incidents_df
  pure (save_to_sqlite flow_edf incidents_edf db)

/-! ### Specification-side descriptions and well-formedness

`specFlattenLinks` below renders §4.2's geometry sentence — "concatenate
all points across all links, in link order then point order within each
link" — for comparison with the nested loop of the source.  The `WF`
predicates delimit "valid provider JSON": every field may be absent at
every level, but a field that is present carries a value of the
container kind the source indexes into. -/

/-- Spec wording: one point contributes the pair of its `lng` and `lat`
values, a missing component contributing the null value. -/
def specPointPair (p : JVal) : JVal × JVal :=
  match p with
  | .obj fs => ((fs.lookup "lng").getD .null, (fs.lookup "lat").getD .null)
  | _ => (.null, .null)

/-- Spec wording: the ordered points of one link; a link without a
`points` list contributes none. -/
def specLinkPoints (link : JVal) : List JVal :=
  match link with
  | .obj fs =>
    match fs.lookup "points" with
    | some (.arr pts) => pts
    | _ => []
  | _ => []

/-- Spec wording (§4.2): concatenate all points across all links, in
link order then point order within each link, into one flat ordered
sequence of `(lng, lat)` pairs. -/
def specFlattenLinks (links : List JVal) : List (JVal × JVal) :=
  (links.map (fun link => (specLinkPoints link).map specPointPair)).flatten

/-- A well-formed link: an object whose `points` value, when present, is
a list of objects. -/
def linkWF (link : JVal) : Bool :=
  match link with
  | .obj fs =>
    match fs.lookup "points" with
    | some (.arr pts) =>
      pts.all (fun p => match p with | .obj _ => true | _ => false)
    | some _ => false
    | none => true
  | _ => false

/-- A well-formed shape: an object whose `links` value, when present, is
a list of well-formed links. -/
def shapeWF (shape : JVal) : Bool :=
  match shape with
  | .obj fs =>
    match fs.lookup "links" with
    | some (.arr ls) => ls.all linkWF
    | some _ => false
    | none => true
  | _ => false

/-- A well-formed location: an object whose `shape` value, when present,
is a well-formed shape. -/
def locationWF (location : JVal) : Bool :=
  match location with
  | .obj fs =>
    match fs.lookup "shape" with
    | some s => shapeWF s
    | none => true
  | _ => false

/-- A well-formed flow entity: an object; its `location`, when present,
is a well-formed location; its `currentFlow`, when present, is an
object. -/
def flowEntityWF (e : JVal) : Bool :=
  match e with
  | .obj fs =>
    (match fs.lookup "location" with
     | some l => locationWF l
     | none => true) &&
    (match fs.lookup "currentFlow" with
     | some (.obj _) => true
     | some _ => false
     | none => true)
  | _ => false

/-- A well-formed incident entity: an object; its `location`, when
present, is a well-formed location; its `incidentDetails`, when present,
is an object whose `description`, when present, is an object. -/
def incidentEntityWF (e : JVal) : Bool :=
  match e with
  | .obj fs =>
    (match fs.lookup "location" with
     | some l => locationWF l
     | none => true) &&
    (match fs.lookup "incidentDetails" with
     | some (.obj dfs) =>
       (match dfs.lookup "description" with
        | some (.obj _) => true
        | some _ => false
        | none => true)
     | some _ => false
     | none => true)
  | _ => false

/-- The flow record produced from an entity with every field absent:
all defaults. -/
def defaultFlowRecord : FlowRecord :=
  { location_description := .str "", speed := .null, speed_limit := .null,
    jam_factor := .null, confidence := .null, free_flow_speed := .null,
    traversability := .str "", geometry := none }

/-- The incident record produced from an entity with every field absent:
all defaults. -/
def defaultIncidentRecord : IncidentRecord :=
  { incident_id := .str "", type := .str "", description := .str "",
    criticality := .str "", start_time := .str "", geometry := none }

/-- Total version of the per-entity flow extraction, used to state which
record the i-th entity yields. -/
def parseFlowRecordD (e : JVal) : FlowRecord :=
  match parseFlowRecord e with
  | .ok r => r
  | .error _ => defaultFlowRecord

/-- Total version of the per-entity incident extraction. -/
def parseIncidentRecordD (e : JVal) : IncidentRecord :=
  match parseIncidentRecord e with
  | .ok r => r
  | .error _ => defaultIncidentRecord

/-- An atom the geometry printer serializes unambiguously: the null
value or a number.  Provider `lng`/`lat` components are numbers when
present and null when absent. -/
def atomOK : JVal → Bool
  | .null => true
  | .num _ => true
  | _ => false

/-- Both components of a coordinate pair are atoms. -/
def coordOK (p : JVal × JVal) : Bool :=
  atomOK p.1 && atomOK p.2

/-- Number of rows currently stored in `traffic_flow` (0 when the table
does not exist). -/
def flowRowCount (db : TrafficDB) : Nat :=
  match db.traffic_flow with
  | none => 0
  | some t => t.rows.length

/-- Number of rows currently stored in `traffic_incidents` (0 when the
table does not exist). -/
def incidentRowCount (db : TrafficDB) : Nat :=
  match db.traffic_incidents with
  | none => 0
  | some t => t.rows.length

/-! ### Reduction lemmas for the `Except` monad -/

@[simp]
theorem exceptOkBind {ε α β : Type} (a : α) (f : α → Except ε β) :
    (Except.ok a >>= f : Except ε β) = f a := rfl

@[simp]
theorem exceptErrorBind {ε α β : Type} (e : ε) (f : α → Except ε β) :
    (Except.error e >>= f : Except ε β) = Except.error e := rfl

@[simp]
theorem exceptPureEq {ε α : Type} (a : α) :
    (pure a : Except ε α) = Except.ok a := rfl

/-! ### Dictionary lemmas -/

theorem lookup_some_any {fs : List (String × JVal)} {k : String} {v : JVal}
    (h : fs.lookup k = some v) : fs.any (fun kv => kv.1 == k) = true := by
  induction fs with
  | nil => simp [List.lookup] at h
  | cons kv rest ih =>
    rw [List.lookup] at h
    by_cases hk : k = kv.1
    · simp [hk]
    · have : (k == kv.1) = false := beq_false_of_ne hk
      rw [this] at h
      have : (kv.1 == k) = false := beq_false_of_ne (Ne.symm hk)
      simp only [List.any_cons, this, Bool.false_or]
      exact ih h

theorem lookup_none_any {fs : List (String × JVal)} {k : String}
    (h : fs.lookup k = none) : fs.any (fun kv => kv.1 == k) = false := by
  induction fs with
  | nil => simp
  | cons kv rest ih =>
    rw [List.lookup] at h
    by_cases hk : k = kv.1
    · rw [beq_iff_eq.mpr hk] at h
      exact absurd h (by simp)
    · have hbk : (k == kv.1) = false := beq_false_of_ne hk
      rw [hbk] at h
      have : (kv.1 == k) = false := beq_false_of_ne (Ne.symm hk)
      simp only [List.any_cons, this, Bool.false_or]
      exact ih h

theorem lookup_some_ne_nil {fs : List (String × JVal)} {k : String} {v : JVal}
    (h : fs.lookup k = some v) : fs ≠ [] := by
  intro hnil
  rw [hnil] at h
  simp [List.lookup] at h

/-! ### Geometry extraction lemmas -/

theorem pointPair_obj (fs : List (String × JVal)) :
    pointPair (.obj fs) = .ok (specPointPair (.obj fs)) := rfl

theorem mapM_pointPair {pts : List JVal}
    (h : ∀ p ∈ pts, ∃ pfs, p = JVal.obj pfs) :
    pts.mapM pointPair = .ok (pts.map specPointPair) := by
  induction pts with
  | nil => rfl
  | cons p rest ih =>
    obtain ⟨pfs, rfl⟩ := h p (by simp)
    rw [List.mapM_cons, List.map_cons, pointPair_obj]
    have := ih (fun q hq => h q (by simp [hq]))
    simp only [this]
    rfl

theorem collectCoords_wf : ∀ (ls : List JVal) (acc : List (JVal × JVal)),
    (∀ l ∈ ls, linkWF l = true) →
    collectCoords ls acc = .ok (acc ++ specFlattenLinks ls) := by
  intro ls
  induction ls with
  | nil => intro acc _; simp [collectCoords, specFlattenLinks]
  | cons link rest ih =>
    intro acc h
    have hlink := h link (by simp)
    have hrest : ∀ l ∈ rest, linkWF l = true := fun l hl => h l (by simp [hl])
    match link, hlink with
    | .obj lfs, hlink =>
      simp only [linkWF] at hlink
      simp only [collectCoords, pyContains, Except.bind]
      match hp : lfs.lookup "points" with
      | some (.arr pts) =>
        rw [hp] at hlink
        simp only at hlink
        have hpts : ∀ p ∈ pts, ∃ pfs, p = JVal.obj pfs := by
          intro p hpmem
          have := List.all_eq_true.mp hlink p hpmem
          match p, this with
          | .obj pfs, _ => exact ⟨pfs, rfl⟩
        rw [lookup_some_any hp]
        simp only [exceptOkBind, if_pos rfl, pySubscript, hp, pyIter]
        rw [mapM_pointPair hpts]
        simp only [exceptOkBind]
        rw [ih (acc ++ pts.map specPointPair) hrest]
        simp [specFlattenLinks, specLinkPoints, hp, List.append_assoc]
      | some .null => rw [hp] at hlink; exact absurd hlink (by simp)
      | some (.bool b) => rw [hp] at hlink; exact absurd hlink (by simp)
      | some (.num n) => rw [hp] at hlink; exact absurd hlink (by simp)
      | some (.str s) => rw [hp] at hlink; exact absurd hlink (by simp)
      | some (.obj o) => rw [hp] at hlink; exact absurd hlink (by simp)
      | none =>
        rw [lookup_none_any hp]
        simp only [exceptOkBind, Bool.false_eq_true, if_false]
        rw [ih acc hrest]
        simp [specFlattenLinks, specLinkPoints, hp]

theorem extractGeometry_no_shape {lfs : List (String × JVal)}
    (h : lfs.lookup "shape" = none) :
    extractGeometry (.obj lfs) = .ok none := by
  simp only [extractGeometry, pyContains, exceptOkBind]
  rw [lookup_none_any h]
  simp

theorem extractGeometry_no_links {lfs sfs : List (String × JVal)}
    (h : lfs.lookup "shape" = some (.obj sfs))
    (h2 : sfs.lookup "links" = none) :
    extractGeometry (.obj lfs) = .ok none := by
  simp only [extractGeometry, pyContains, exceptOkBind]
  rw [lookup_some_any h]
  simp only [if_pos rfl, pySubscript, h, exceptOkBind, pyContains]
  rw [lookup_none_any h2]
  simp

theorem extractGeometry_links {lfs sfs : List (String × JVal)} {ls : List JVal}
    (h : lfs.lookup "shape" = some (.obj sfs))
    (h2 : sfs.lookup "links" = some (.arr ls))
    (hwf : ∀ l ∈ ls, linkWF l = true) :
    extractGeometry (.obj lfs) =
      .ok (some (serializeCoords (specFlattenLinks ls))) := by
  simp only [extractGeometry, pyContains, exceptOkBind]
  rw [lookup_some_any h]
  simp only [if_pos rfl, pySubscript, h, exceptOkBind, pyContains]
  rw [lookup_some_any h2]
  simp only [if_pos rfl, h2, exceptOkBind, pyIter]
  rw [collectCoords_wf ls [] hwf]
  simp

theorem locationWF_obj {l : JVal} (h : locationWF l = true) :
    ∃ lfs, l = .obj lfs := by
  match l, h with
  | .obj lfs, _ => exact ⟨lfs, rfl⟩

theorem locationWF_extract {l : JVal} (h : locationWF l = true) :
    ∃ g, extractGeometry l = .ok g := by
  obtain ⟨lfs, rfl⟩ := locationWF_obj h
  simp only [locationWF] at h
  match hs : lfs.lookup "shape" with
  | none => exact ⟨none, extractGeometry_no_shape hs⟩
  | some s =>
    rw [hs] at h
    simp only [shapeWF] at h
    match s, h with
    | .obj sfs, h =>
      simp only at h
      match hl : sfs.lookup "links" with
      | none => exact ⟨none, extractGeometry_no_links hs hl⟩
      | some (.arr ls) =>
        rw [hl] at h
        simp only at h
        exact ⟨some (serializeCoords (specFlattenLinks ls)),
          extractGeometry_links hs hl (List.all_eq_true.mp h)⟩
      | some .null => rw [hl] at h; exact absurd h (by simp)
      | some (.bool b) => rw [hl] at h; exact absurd h (by simp)
      | some (.num n) => rw [hl] at h; exact absurd h (by simp)
      | some (.str st) => rw [hl] at h; exact absurd h (by simp)
      | some (.obj o) => rw [hl] at h; exact absurd h (by simp)

theorem parseFlowRecord_wf {e : JVal} (h : flowEntityWF e = true) :
    ∃ r, parseFlowRecord e = .ok r := by
  match e, h with
  | .obj fs, h =>
    simp only [flowEntityWF, Bool.and_eq_true] at h
    obtain ⟨hloc, hcf⟩ := h
    have hlocWF : locationWF ((fs.lookup "location").getD (.obj [])) = true := by
      match hl : fs.lookup "location" with
      | none => rfl
      | some l => rw [hl] at hloc; exact hloc
    have hcfObj : ∃ cfs, (fs.lookup "currentFlow").getD (.obj []) = .obj cfs := by
      match hc : fs.lookup "currentFlow" with
      | none => exact ⟨[], rfl⟩
      | some c =>
        rw [hc] at hcf
        match c, hcf with
        | .obj cfs, _ => exact ⟨cfs, rfl⟩
    obtain ⟨lfs, hlfs⟩ := locationWF_obj hlocWF
    obtain ⟨cfs, hcfs⟩ := hcfObj
    obtain ⟨g, hg⟩ := locationWF_extract hlocWF
    rw [hlfs] at hg
    refine ⟨{ location_description := (lfs.lookup "description").getD (.str ""),
              speed := (cfs.lookup "speed").getD .null,
              speed_limit := (cfs.lookup "speedLimit").getD .null,
              jam_factor := (cfs.lookup "jamFactor").getD .null,
              confidence := (cfs.lookup "confidence").getD .null,
              free_flow_speed := (cfs.lookup "freeFlowSpeed").getD .null,
              traversability := (cfs.lookup "traversability").getD (.str ""),
              geometry := g }, ?_⟩
    simp only [parseFlowRecord, pyGet, exceptOkBind]
    rw [hlfs, hcfs]
    simp only [pyGet, exceptOkBind]
    rw [hg]
    rfl

theorem parseFlowRecord_wf_eq {e : JVal} (h : flowEntityWF e = true) :
    parseFlowRecord e = .ok (parseFlowRecordD e) := by
  obtain ⟨r, hr⟩ := parseFlowRecord_wf h
  simp [parseFlowRecordD, hr]

theorem parseIncidentRecord_wf {e : JVal} (h : incidentEntityWF e = true) :
    ∃ r, parseIncidentRecord e = .ok r := by
  match e, h with
  | .obj fs, h =>
    simp only [incidentEntityWF, Bool.and_eq_true] at h
    obtain ⟨hloc, hdet⟩ := h
    have hlocWF : locationWF ((fs.lookup "location").getD (.obj [])) = true := by
      match hl : fs.lookup "location" with
      | none => rfl
      | some l => rw [hl] at hloc; exact hloc
    have hdetObj : ∃ dfs, (fs.lookup "incidentDetails").getD (.obj []) = .obj dfs ∧
        (match dfs.lookup "description" with
         | some (.obj _) => true
         | some _ => false
         | none => true) = true := by
      match hd : fs.lookup "incidentDetails" with
      | none => exact ⟨[], rfl, rfl⟩
      | some d =>
        rw [hd] at hdet
        match d, hdet with
        | .obj dfs, hdet => exact ⟨dfs, rfl, hdet⟩
    obtain ⟨lfs, hlfs⟩ := locationWF_obj hlocWF
    obtain ⟨dfs, hdfs, hdesc⟩ := hdetObj
    have hdescObj : ∃ ofs, (dfs.lookup "description").getD (.obj []) = .obj ofs := by
      match hv : dfs.lookup "description" with
      | none => exact ⟨[], rfl⟩
      | some v =>
        rw [hv] at hdesc
        match v, hdesc with
        | .obj ofs, _ => exact ⟨ofs, rfl⟩
    obtain ⟨ofs, hofs⟩ := hdescObj
    obtain ⟨g, hg⟩ := locationWF_extract hlocWF
    rw [hlfs] at hg
    refine ⟨{ incident_id := (fs.lookup "incidentId").getD (.str ""),
              type := (dfs.lookup "type").getD (.str ""),
              description := (ofs.lookup "value").getD (.str ""),
              criticality := (dfs.lookup "criticality").getD (.str ""),
              start_time := (dfs.lookup "startTime").getD (.str ""),
              geometry := g }, ?_⟩
    simp only [parseIncidentRecord, pyGet, exceptOkBind]
    rw [hlfs, hdfs]
    simp only [pyGet, exceptOkBind]
    rw [hofs]
    simp only [pyGet, exceptOkBind]
    rw [hg]
    rfl

theorem parseIncidentRecord_wf_eq {e : JVal} (h : incidentEntityWF e = true) :
    parseIncidentRecord e = .ok (parseIncidentRecordD e) := by
  obtain ⟨r, hr⟩ := parseIncidentRecord_wf h
  simp [parseIncidentRecordD, hr]

/-! ### Normalizer-level lemmas -/

theorem parseFlowRecords_wf {rs : List JVal}
    (h : ∀ e ∈ rs, flowEntityWF e = true) :
    parseFlowRecords rs = .ok (rs.map parseFlowRecordD) := by
  induction rs with
  | nil => rfl
  | cons e rest ih =>
    simp only [parseFlowRecords]
    rw [parseFlowRecord_wf_eq (h e (by simp))]
    simp only [exceptOkBind]
    rw [ih (fun x hx => h x (by simp [hx]))]
    simp

theorem parseIncidentRecords_wf {rs : List JVal}
    (h : ∀ e ∈ rs, incidentEntityWF e = true) :
    parseIncidentRecords rs = .ok (rs.map parseIncidentRecordD) := by
  induction rs with
  | nil => rfl
  | cons e rest ih =>
    simp only [parseIncidentRecords]
    rw [parseIncidentRecord_wf_eq (h e (by simp))]
    simp only [exceptOkBind]
    rw [ih (fun x hx => h x (by simp [hx]))]
    simp

theorem parse_flow_results {fs : List (String × JVal)} {rs : List JVal}
    (h : fs.lookup "results" = some (.arr rs))
    (hwf : ∀ e ∈ rs, flowEntityWF e = true) :
    parse_traffic_flow_to_dataframe (.obj fs) =
      .ok (some (rs.map parseFlowRecordD)) := by
  have hne : fs.isEmpty = false := by
    cases fs with
    | nil => exact absurd rfl (lookup_some_ne_nil h)
    | cons kv rest => rfl
  simp only [parse_traffic_flow_to_dataframe, JVal.truthy, hne,
    Bool.not_false, Bool.not_true, Bool.false_eq_true, if_false,
    pyContains, exceptOkBind]
  rw [lookup_some_any h]
  simp only [Bool.not_true, Bool.false_eq_true, if_false, pySubscript, h,
    exceptOkBind, pyIter]
  rw [parseFlowRecords_wf hwf]
  simp

theorem parse_incidents_results {fs : List (String × JVal)} {rs : List JVal}
    (h : fs.lookup "results" = some (.arr rs))
    (hwf : ∀ e ∈ rs, incidentEntityWF e = true) :
    parse_incidents_to_dataframe (.obj fs) =
      .ok (some (rs.map parseIncidentRecordD)) := by
  have hne : fs.isEmpty = false := by
    cases fs with
    | nil => exact absurd rfl (lookup_some_ne_nil h)
    | cons kv rest => rfl
  simp only [parse_incidents_to_dataframe, JVal.truthy, hne,
    Bool.not_false, Bool.not_true, Bool.false_eq_true, if_false,
    pyContains, exceptOkBind]
  rw [lookup_some_any h]
  simp only [Bool.not_true, Bool.false_eq_true, if_false, pySubscript, h,
    exceptOkBind, pyIter]
  rw [parseIncidentRecords_wf hwf]
  simp

theorem parse_flow_no_results {fs : List (String × JVal)}
    (h : fs.lookup "results" = none) :
    parse_traffic_flow_to_dataframe (.obj fs) = .ok none := by
  by_cases hfs : fs.isEmpty
  · simp [parse_traffic_flow_to_dataframe, JVal.truthy, hfs]
  · simp only [Bool.not_eq_true] at hfs
    simp only [parse_traffic_flow_to_dataframe, JVal.truthy, hfs,
      Bool.not_false, Bool.not_true, Bool.false_eq_true, if_false,
      pyContains, exceptOkBind]
    rw [lookup_none_any h]
    simp

theorem parse_incidents_no_results {fs : List (String × JVal)}
    (h : fs.lookup "results" = none) :
    parse_incidents_to_dataframe (.obj fs) = .ok none := by
  by_cases hfs : fs.isEmpty
  · simp [parse_incidents_to_dataframe, JVal.truthy, hfs]
  · simp only [Bool.not_eq_true] at hfs
    simp only [parse_incidents_to_dataframe, JVal.truthy, hfs,
      Bool.not_false, Bool.not_true, Bool.false_eq_true, if_false,
      pyContains, exceptOkBind]
    rw [lookup_none_any h]
    simp

/-! ### Round-trip of the geometry serialization -/

theorem digitChar_isDigit {d : Nat} (h : d < 10) :
    (Nat.digitChar d).isDigit = true := by
  interval_cases d <;> decide

theorem digitChar_toNat {d : Nat} (h : d < 10) :
    (Nat.digitChar d).toNat - 48 = d := by
  interval_cases d <;> decide

theorem natDigitsRev_eq_digits : ∀ fuel n : Nat, n < fuel →
    natDigitsRev fuel n = Nat.digits 10 n := by
  intro fuel
  induction fuel with
  | zero => intro n h; omega
  | succ fuel ih =>
    intro n h
    simp only [natDigitsRev]
    by_cases hn : n = 0
    · subst hn; simp
    · rw [if_neg hn, ih (n / 10) (by omega),
        Nat.digits_def' (by norm_num : (1 : Nat) < 10)
          (Nat.pos_of_ne_zero hn)]

theorem natRepr_eq (n : Nat) :
    natRepr n =
      if n = 0 then ['0']
      else ((Nat.digits 10 n).map Nat.digitChar).reverse := by
  unfold natRepr
  by_cases h : n = 0
  · simp [h]
  · rw [if_neg h, if_neg h, natDigitsRev_eq_digits (n + 1) n (by omega)]

theorem natRepr_ne_nil (n : Nat) : natRepr n ≠ [] := by
  rw [natRepr_eq]
  split
  · simp
  · rename_i h
    simp only [ne_eq, List.reverse_eq_nil_iff, List.map_eq_nil_iff]
    exact Nat.digits_ne_nil_iff_ne_zero.mpr h

theorem natRepr_all_digits (n : Nat) :
    ∀ c ∈ natRepr n, c.isDigit = true := by
  rw [natRepr_eq]
  split
  · intro c hc
    simp only [List.mem_singleton] at hc
    subst hc
    decide
  · intro c hc
    simp only [List.mem_reverse, List.mem_map] at hc
    obtain ⟨d, hd, rfl⟩ := hc
    exact digitChar_isDigit (Nat.digits_lt_base (by norm_num) hd)

theorem map_id_of_mem {α : Type} {l : List α} {f : α → α}
    (h : ∀ x ∈ l, f x = x) : l.map f = l := by
  induction l with
  | nil => rfl
  | cons x xs ih =>
    simp only [List.map_cons, h x (by simp)]
    rw [ih (fun y hy => h y (by simp [hy]))]

theorem digitsToNat_natRepr (n : Nat) : digitsToNat (natRepr n) = n := by
  rw [natRepr_eq]
  unfold digitsToNat
  split
  · subst n
    simp [Nat.ofDigits]
  · rename_i h
    rw [List.map_reverse, List.reverse_reverse, List.map_map]
    have : ((Nat.digits 10 n).map ((fun c => c.toNat - 48) ∘ Nat.digitChar))
        = Nat.digits 10 n := by
      apply map_id_of_mem
      intro d hd
      exact digitChar_toNat (Nat.digits_lt_base (by norm_num) hd)
    rw [this, Nat.ofDigits_digits]

theorem takeDigits_append {ds rest : List Char}
    (hds : ∀ c ∈ ds, c.isDigit = true)
    (hrest : ∀ c, rest.head? = some c → c.isDigit = false) :
    takeDigits (ds ++ rest) = (ds, rest) := by
  induction ds with
  | nil =>
    cases rest with
    | nil => rfl
    | cons c cs =>
      have := hrest c rfl
      simp [takeDigits, this]
  | cons c cs ih =>
    have hc := hds c (by simp)
    simp only [List.cons_append, takeDigits, hc, if_pos, List.append_eq]
    rw [ih (fun x hx => hds x (by simp [hx]))]

theorem take_four_ne_none {cs : List Char} {c : Char}
    (h : cs.head? = some c) (hc : c ≠ 'N') :
    cs.take 4 ≠ ['N', 'o', 'n', 'e'] := by
  cases cs with
  | nil => simp at h
  | cons c0 cs' =>
    simp only [List.head?_cons, Option.some.injEq] at h
    subst h
    intro habs
    simp only [List.take_succ_cons, List.cons.injEq] at habs
    exact hc habs.1

theorem parseAtom_null (rest : List Char) :
    parseAtom (pyRepr .null ++ rest) = some (.null, rest) := by
  simp [pyRepr, parseAtom]

theorem parseAtom_num (n : Int) {rest : List Char}
    (hrest : rest.head? = some ',' ∨ rest.head? = some ')') :
    parseAtom (pyRepr (.num n) ++ rest) = some (.num n, rest) := by
  have hrestd : ∀ c, rest.head? = some c → c.isDigit = false := by
    intro c hc
    rcases hrest with h | h <;> rw [h] at hc <;>
      simp only [Option.some.injEq] at hc <;> subst hc <;> decide
  have hdigits := natRepr_all_digits n.natAbs
  have hne := natRepr_ne_nil n.natAbs
  simp only [pyRepr]
  unfold intRepr
  split
  · rename_i hneg
    have hhead : (('-' :: natRepr n.natAbs) ++ rest).head? = some '-' := by simp
    unfold parseAtom
    rw [if_neg (take_four_ne_none hhead (by decide))]
    simp only [List.cons_append, List.head?_cons, if_pos rfl, List.tail_cons]
    rw [takeDigits_append hdigits hrestd]
    have : (match (natRepr n.natAbs, rest) with
        | ([], _) => none
        | (ds, r) => some (JVal.num (-(digitsToNat ds : Int)), r))
        = some (JVal.num (-(digitsToNat (natRepr n.natAbs) : Int)), rest) := by
      cases hnr : natRepr n.natAbs with
      | nil => exact absurd hnr hne
      | cons d ds' => simp
    rw [this, digitsToNat_natRepr]
    have : -(n.natAbs : Int) = n := by omega
    rw [this]
    simp
  · rename_i hneg
    obtain ⟨d, ds', hnr⟩ : ∃ d ds', natRepr n.natAbs = d :: ds' := by
      cases hnr : natRepr n.natAbs with
      | nil => exact absurd hnr hne
      | cons d ds' => exact ⟨d, ds', rfl⟩
    have hd : d.isDigit = true := hdigits d (by rw [hnr]; simp)
    have hhead : ((natRepr n.natAbs) ++ rest).head? = some d := by
      rw [hnr]; simp
    unfold parseAtom
    rw [if_neg (take_four_ne_none hhead (by
      intro habs
      rw [habs] at hd
      exact absurd hd (by decide)))]
    have hnotneg : ((natRepr n.natAbs ++ rest).head? = some '-') = False := by
      rw [hhead]
      simp only [Option.some.injEq, eq_iff_iff, iff_false]
      intro habs
      rw [habs] at hd
      exact absurd hd (by decide)
    rw [if_neg (by rw [hnotneg]; exact id)]
    rw [takeDigits_append hdigits hrestd]
    have : (match (natRepr n.natAbs, rest) with
        | ([], _) => none
        | (ds, r) => some (JVal.num (digitsToNat ds : Int), r))
        = some (JVal.num (digitsToNat (natRepr n.natAbs) : Int), rest) := by
      rw [hnr]
    rw [this, digitsToNat_natRepr]
    have : ((n.natAbs : Int)) = n := by omega
    rw [this]

theorem parseAtom_atom {v : JVal} (h : atomOK v = true) {rest : List Char}
    (hrest : rest.head? = some ',' ∨ rest.head? = some ')') :
    parseAtom (pyRepr v ++ rest) = some (v, rest) := by
  match v, h with
  | .null, _ => exact parseAtom_null rest
  | .num n, _ => exact parseAtom_num n hrest

theorem parsePair_repr {p : JVal × JVal} (h : coordOK p = true)
    (rest : List Char) :
    parsePair (pairRepr p ++ rest) = some (p, rest) := by
  obtain ⟨a, b⟩ := p
  simp only [coordOK, Bool.and_eq_true] at h
  obtain ⟨ha, hb⟩ := h
  simp only [pairRepr, List.cons_append, List.append_assoc, List.nil_append,
    parsePair]
  rw [parseAtom_atom ha (by left; rfl)]
  simp [@parseAtom_atom b hb (')' :: rest) (Or.inr rfl)]

theorem parsePairs_stop {cs : List Char} {p : JVal × JVal} {rest : List Char}
    (hp : parsePair cs = some (p, rest)) (hrest : rest.take 2 ≠ [',', ' ']) :
    parsePairs cs = some ([p], rest) := by
  unfold parsePairs
  split
  · rename_i heq
    rw [hp] at heq
    exact absurd heq (by simp)
  · rename_i p' rest' heq
    rw [hp] at heq
    simp only [Option.some.injEq, Prod.mk.injEq] at heq
    obtain ⟨rfl, rfl⟩ := heq
    rw [if_neg hrest]

theorem parsePairs_step {cs : List Char} {p : JVal × JVal} {rest2 : List Char}
    (hp : parsePair cs = some (p, ',' :: ' ' :: rest2)) :
    parsePairs cs =
      match parsePairs rest2 with
      | none => none
      | some (ps, r) => some (p :: ps, r) := by
  conv_lhs => rw [parsePairs]
  split
  · rename_i heq
    rw [hp] at heq
    exact absurd heq (by simp)
  · rename_i p' rest' heq
    rw [hp] at heq
    simp only [Option.some.injEq, Prod.mk.injEq] at heq
    obtain ⟨rfl, rfl⟩ := heq
    rw [if_pos (by simp)]
    simp

theorem pairRepr_ne_nil (p : JVal × JVal) : pairRepr p ≠ [] := by
  simp [pairRepr]

theorem joinSep_cons_ne_nil {sep x : List Char} {xs : List (List Char)}
    (hx : x ≠ []) : joinSep sep (x :: xs) ≠ [] := by
  cases xs with
  | nil => simpa [joinSep] using hx
  | cons y ys => simp [joinSep, hx]

theorem parsePairs_repr : ∀ (ps : List (JVal × JVal)) (rest : List Char),
    ps ≠ [] → (∀ p ∈ ps, coordOK p = true) → rest.take 2 ≠ [',', ' '] →
    parsePairs (joinSep [',', ' '] (ps.map pairRepr) ++ rest) =
      some (ps, rest) := by
  intro ps
  induction ps with
  | nil => intro rest h; exact absurd rfl h
  | cons p ps' ih =>
    intro rest _ hok hrest
    cases ps' with
    | nil =>
      simp only [List.map_cons, List.map_nil, joinSep]
      exact parsePairs_stop (parsePair_repr (hok p (by simp)) rest) hrest
    | cons q qs =>
      simp only [List.map_cons, joinSep]
      rw [show (pairRepr p ++ [',', ' '] ++
            joinSep [',', ' '] (pairRepr q :: List.map pairRepr qs)) ++ rest
          = pairRepr p ++ (',' :: ' ' ::
            (joinSep [',', ' '] (pairRepr q :: List.map pairRepr qs) ++ rest))
          by simp]
      rw [parsePairs_step (parsePair_repr (hok p (by simp)) _)]
      have := ih rest (by simp) (fun x hx => hok x (by simp [hx])) hrest
      simp only [List.map_cons] at this
      rw [this]

theorem parseCoordsL_cons (rest : List Char) :
    parseCoordsL ('[' :: rest) =
      if rest = [']'] then some []
      else
        match parsePairs rest with
        | some (ps, r) => if r = [']'] then some ps else none
        | none => none := rfl

theorem serializeCoords_roundtrip (cs : List (JVal × JVal))
    (h : ∀ p ∈ cs, coordOK p = true) :
    parseCoords (serializeCoords cs) = some cs := by
  cases cs with
  | nil => rfl
  | cons p ps =>
    show parseCoordsL (serializeCoordsL (p :: ps)) = some (p :: ps)
    have hinner : joinSep [',', ' '] ((p :: ps).map pairRepr) ≠ [] := by
      simp only [List.map_cons]
      exact joinSep_cons_ne_nil (pairRepr_ne_nil p)
    show parseCoordsL ('[' ::
      (joinSep [',', ' '] ((p :: ps).map pairRepr) ++ [']'])) = some (p :: ps)
    rw [parseCoordsL_cons]
    rw [if_neg (by
      intro habs
      have := congrArg List.length habs
      simp only [List.length_append, List.length_cons, List.length_nil] at this
      exact hinner (List.length_eq_zero.mp (by omega)))]
    rw [parsePairs_repr (p :: ps) [']'] (by simp) h (by decide)]
    simp

/-! ### Enrichment lemmas -/

theorem strftimeA_mem (t : Timestamp) : strftimeA t ∈ weekdayNames := by
  unfold strftimeA
  have h7 : (zeller t.year t.month t.day + 5) % 7 < 7 :=
    Nat.mod_lt _ (by norm_num)
  have hlen : (zeller t.year t.month t.day + 5) % 7 < weekdayNames.length := by
    simpa [weekdayNames] using h7
  rw [List.getD_eq_getElem?_getD, List.getElem?_eq_getElem hlen]
  exact List.getElem_mem hlen

theorem enrichRecord_fields {α : Type} (t : Timestamp) (r : α) :
    (enrichRecord t r).timestamp = t ∧ (enrichRecord t r).hour = t.hour ∧
    (enrichRecord t r).day_of_week = strftimeA t ∧
    (enrichRecord t r).date = t.dateOnly := ⟨rfl, rfl, rfl, rfl⟩

/-! ## The claims -/

/-- C1: for every input JSON whose `results` collection holds N (valid
provider) entities, `parse_traffic_flow_to_dataframe` and
`parse_incidents_to_dataframe` each return exactly N records, the i-th
record being the one extracted from the i-th entity of `results`
(source order preserved). -/
theorem C1_normalization_count_and_order :
    (∀ (fs : List (String × JVal)) (rs : List JVal),
      fs.lookup "results" = some (.arr rs) →
      (∀ e ∈ rs, flowEntityWF e = true) →
      parse_traffic_flow_to_dataframe (.obj fs) =
        .ok (some (rs.map parseFlowRecordD)) ∧
      (rs.map parseFlowRecordD).length = rs.length ∧
      ∀ i : Nat, (rs.map parseFlowRecordD)[i]? =
        (rs[i]?).map parseFlowRecordD) ∧
    (∀ (fs : List (String × JVal)) (rs : List JVal),
      fs.lookup "results" = some (.arr rs) →
      (∀ e ∈ rs, incidentEntityWF e = true) →
      parse_incidents_to_dataframe (.obj fs) =
        .ok (some (rs.map parseIncidentRecordD)) ∧
      (rs.map parseIncidentRecordD).length = rs.length ∧
      ∀ i : Nat, (rs.map parseIncidentRecordD)[i]? =
        (rs[i]?).map parseIncidentRecordD) := by
  constructor
  · intro fs rs h hwf
    exact ⟨parse_flow_results h hwf, by simp,
      fun i => by simp [List.getElem?_map]⟩
  · intro fs rs h hwf
    exact ⟨parse_incidents_results h hwf, by simp,
      fun i => by simp [List.getElem?_map]⟩

/-- Witness for C1 at a concrete two-entity payload. -/
theorem C1_normalization_count_and_order_witness :
    parse_traffic_flow_to_dataframe
      (.obj [("results", .arr [.obj [("currentFlow",
        .obj [("speed", .num 45)])], .obj []])]) =
      .ok (some ([JVal.obj [("currentFlow", .obj [("speed", .num 45)])],
        JVal.obj []].map parseFlowRecordD)) ∧
    parse_incidents_to_dataframe
      (.obj [("results", .arr [.obj [("incidentId", .str "i1")],
        .obj []])]) =
      .ok (some ([JVal.obj [("incidentId", .str "i1")],
        JVal.obj []].map parseIncidentRecordD)) := by
  constructor
  · exact (C1_normalization_count_and_order.1
      [("results", .arr [.obj [("currentFlow", .obj [("speed", .num 45)])],
        .obj []])]
      [.obj [("currentFlow", .obj [("speed", .num 45)])], .obj []]
      rfl (by decide)).1
  · exact (C1_normalization_count_and_order.2
      [("results", .arr [.obj [("incidentId", .str "i1")], .obj []])]
      [.obj [("incidentId", .str "i1")], .obj []]
      rfl (by decide)).1

/-- C2: a `None` input, and an input object lacking the `results` key,
normalize to `None`; an input whose `results` collection is present but
empty normalizes to an empty record list, not `None`. -/
theorem C2_absent_versus_empty :
    (parse_traffic_flow_to_dataframe .null = .ok none ∧
     parse_incidents_to_dataframe .null = .ok none) ∧
    (∀ fs : List (String × JVal), fs.lookup "results" = none →
      parse_traffic_flow_to_dataframe (.obj fs) = .ok none ∧
      parse_incidents_to_dataframe (.obj fs) = .ok none) ∧
    (∀ fs : List (String × JVal), fs.lookup "results" = some (.arr []) →
      parse_traffic_flow_to_dataframe (.obj fs) = .ok (some []) ∧
      parse_incidents_to_dataframe (.obj fs) = .ok (some [])) := by
  refine ⟨⟨rfl, rfl⟩, ?_, ?_⟩
  · intro fs h
    exact ⟨parse_flow_no_results h, parse_incidents_no_results h⟩
  · intro fs h
    refine ⟨?_, ?_⟩
    · have := parse_flow_results h (by simp)
      simpa using this
    · have := parse_incidents_results h (by simp)
      simpa using this

/-- Witness for C2 at concrete inputs. -/
theorem C2_absent_versus_empty_witness :
    parse_traffic_flow_to_dataframe (.obj [("other", .num 1)]) = .ok none ∧
    parse_incidents_to_dataframe (.obj [("other", .num 1)]) = .ok none ∧
    parse_traffic_flow_to_dataframe (.obj [("results", .arr [])]) =
      .ok (some []) ∧
    parse_incidents_to_dataframe (.obj [("results", .arr [])]) =
      .ok (some []) := by
  refine ⟨?_, ?_, ?_, ?_⟩
  · exact (C2_absent_versus_empty.2.1 [("other", .num 1)] rfl).1
  · exact (C2_absent_versus_empty.2.1 [("other", .num 1)] rfl).2
  · exact (C2_absent_versus_empty.2.2 [("results", .arr [])] rfl).1
  · exact (C2_absent_versus_empty.2.2 [("results", .arr [])] rfl).2

/-- C3: every record of a batch enriched in one run carries the
identical timestamp / hour-of-day / full-English-weekday-name / date
values, derived from the single capture instant `t` shared by the flow
and incident batches (as in `run_main`, which passes the same `t` to
both enrichers), and the hour equals the hour component of that
instant. -/
theorem C3_uniform_batch_timestamp :
    ∀ (t : Timestamp) (flow_df : Option (List FlowRecord))
      (inc_df : Option (List IncidentRecord))
      (frows : List (Enriched FlowRecord))
      (irows : List (Enriched IncidentRecord)),
      enrichFlowBatch t flow_df = some frows →
      enrichIncidentBatch t inc_df = some irows →
      (∀ r ∈ frows, r.timestamp = t ∧ r.hour = t.hour ∧
        r.day_of_week = strftimeA t ∧ r.date = t.dateOnly) ∧
      (∀ r ∈ irows, r.timestamp = t ∧ r.hour = t.hour ∧
        r.day_of_week = strftimeA t ∧ r.date = t.dateOnly) ∧
      strftimeA t ∈ weekdayNames := by
  intro t flow_df inc_df frows irows hf hi
  refine ⟨?_, ?_, strftimeA_mem t⟩
  · match flow_df, hf with
    | some rows, hf =>
      simp only [enrichFlowBatch, Option.some.injEq] at hf
      subst hf
      intro r hr
      obtain ⟨x, -, rfl⟩ := List.mem_map.mp hr
      exact enrichRecord_fields t x
  · match inc_df, hi with
    | some rows, hi =>
      simp only [enrichIncidentBatch] at hi
      by_cases hlen : rows.length > 0
      · rw [if_pos hlen] at hi
        simp only [Option.some.injEq] at hi
        subst hi
        intro r hr
        obtain ⟨x, -, rfl⟩ := List.mem_map.mp hr
        exact enrichRecord_fields t x
      · rw [if_neg hlen] at hi
        simp only [Option.some.injEq] at hi
        subst hi
        intro r hr
        exact absurd hr (List.not_mem_nil r)

/-- Witness for C3 at a concrete instant and one-record batches. -/
theorem C3_uniform_batch_timestamp_witness :
    (∀ r ∈ [enrichRecord ⟨2026, 10, 12, 14, 30, 0⟩ defaultFlowRecord],
      r.timestamp = (⟨2026, 10, 12, 14, 30, 0⟩ : Timestamp) ∧
      r.hour = 14 ∧ r.day_of_week = strftimeA ⟨2026, 10, 12, 14, 30, 0⟩ ∧
      r.date = (⟨2026, 10, 12⟩ : DateOnly)) ∧
    strftimeA ⟨2026, 10, 12, 14, 30, 0⟩ ∈ weekdayNames := by
  have h := C3_uniform_batch_timestamp ⟨2026, 10, 12, 14, 30, 0⟩
    (some [defaultFlowRecord]) (some [defaultIncidentRecord])
    [enrichRecord ⟨2026, 10, 12, 14, 30, 0⟩ defaultFlowRecord]
    [enrichRecord ⟨2026, 10, 12, 14, 30, 0⟩ defaultIncidentRecord]
    rfl rfl
  exact ⟨h.1, h.2.2⟩

/-- C5 counterexample: a network error raised inside `requests.get` is
not converted into an absent result — `fetch_traffic_flow` has no
exception handler, so the exception propagates to the caller instead of
the absent result the claim promises. -/
theorem C5_network_error_escapes_counterexample :
    (fetch_traffic_flow (.error (.connectionError "connection refused"))).1 =
      .error (.connectionError "connection refused") := rfl

/-- C5 (amended): a non-200 HTTP status is surfaced as an absent result
(`None`) with no exception, the flow fetch printing an `Error: <status>`
diagnostic and the incidents fetch printing none; but a network error
(an exception raised by the HTTP library) propagates to the caller from
either fetch. -/
theorem C5_non200_absent_with_flow_diagnostic :
    ∀ r : HttpResponse, r.status_code ≠ 200 →
      fetch_traffic_flow (.ok r) =
        (.ok .null, ["Fetching traffic flow data...",
          "Error: " ++ toString r.status_code]) ∧
      fetch_traffic_incidents (.ok r) =
        (.ok .null, ["Fetching traffic incidents..."]) ∧
      (∀ e : PyErr, (fetch_traffic_flow (.error e)).1 = .error e ∧
        (fetch_traffic_incidents (.error e)).1 = .error e) := by
  intro r h
  refine ⟨?_, ?_, fun e => ⟨rfl, rfl⟩⟩
  · simp [fetch_traffic_flow, h]
  · simp [fetch_traffic_incidents, h]

/-- Witness for the amended C5 at status 500. -/
theorem C5_non200_absent_with_flow_diagnostic_witness :
    fetch_traffic_flow (.ok ⟨500, .null⟩) =
      (.ok .null, ["Fetching traffic flow data...", "Error: 500"]) ∧
    fetch_traffic_incidents (.ok ⟨500, .null⟩) =
      (.ok .null, ["Fetching traffic incidents..."]) := by
  have h := C5_non200_absent_with_flow_diagnostic ⟨500, .null⟩ (by decide)
  exact ⟨h.1, h.2.1⟩

/-- C6: when the entity's location carries a shape with links, the
geometry field is the serialization of the flat concatenation of all
links' points, in link order then point order (`specFlattenLinks`), and
re-parsing the serialization recovers the same ordered list of
`(lng, lat)` pairs. -/
theorem C6_geometry_flatten_and_roundtrip :
    (∀ (lfs sfs : List (String × JVal)) (ls : List JVal),
      lfs.lookup "shape" = some (.obj sfs) →
      sfs.lookup "links" = some (.arr ls) →
      (∀ l ∈ ls, linkWF l = true) →
      extractGeometry (.obj lfs) =
        .ok (some (serializeCoords (specFlattenLinks ls)))) ∧
    (∀ coords : List (JVal × JVal), (∀ p ∈ coords, coordOK p = true) →
      parseCoords (serializeCoords coords) = some coords) := by
  exact ⟨fun lfs sfs ls h h2 hwf => extractGeometry_links h h2 hwf,
    serializeCoords_roundtrip⟩

/-- Witness for C6: links `[[p1, p2], [p3]]` flatten to `[p1, p2, p3]`
and the serialization parses back to the same three pairs. -/
theorem C6_geometry_flatten_and_roundtrip_witness :
    extractGeometry (.obj [("shape", .obj [("links", .arr [
      .obj [("points", .arr [.obj [("lng", .num 1), ("lat", .num 2)],
        .obj [("lng", .num 3), ("lat", .num 4)]])],
      .obj [("points", .arr [.obj [("lng", .num 5), ("lat", .num 6)]])]])])]) =
      .ok (some (serializeCoords [(.num 1, .num 2), (.num 3, .num 4),
        (.num 5, .num 6)])) ∧
    parseCoords (serializeCoords [(.num 1, .num 2), (.num 3, .num 4),
      (.num 5, .num 6)]) =
      some [(.num 1, .num 2), (.num 3, .num 4), (.num 5, .num 6)] := by
  constructor
  · have h := C6_geometry_flatten_and_roundtrip.1
      [("shape", .obj [("links", .arr [
        .obj [("points", .arr [.obj [("lng", .num 1), ("lat", .num 2)],
          .obj [("lng", .num 3), ("lat", .num 4)]])],
        .obj [("points", .arr [.obj [("lng", .num 5), ("lat", .num 6)]])]])])]
      [("links", .arr [
        .obj [("points", .arr [.obj [("lng", .num 1), ("lat", .num 2)],
          .obj [("lng", .num 3), ("lat", .num 4)]])],
        .obj [("points", .arr [.obj [("lng", .num 5), ("lat", .num 6)]])]])]
      [.obj [("points", .arr [.obj [("lng", .num 1), ("lat", .num 2)],
          .obj [("lng", .num 3), ("lat", .num 4)]])],
        .obj [("points", .arr [.obj [("lng", .num 5), ("lat", .num 6)]])]]
      rfl rfl (by decide)
    rw [h]
    rfl
  · exact C6_geometry_flatten_and_roundtrip.2
      [(.num 1, .num 2), (.num 3, .num 4), (.num 5, .num 6)] (by decide)

/-- C7 counterexample: an entity whose location has a shape with a
`links` key but no points at all (`links: []`) does NOT omit the
geometry field — the record carries `geometry = "[]"`, the empty
serialization, contradicting the claim that a no-points entity omits
the key. -/
theorem C7_no_points_geometry_present_counterexample :
    (parseFlowRecordD (.obj [("location", .obj [("shape",
      .obj [("links", .arr [])])])])).geometry = some "[]" := rfl

/-- C7 (amended): the geometry field is omitted exactly when the
location has no `shape` key or its shape has no `links` key; whenever
both keys are present the field is written — it equals the
serialization of the flattened points, which is the empty serialization
`"[]"` when the links hold no points. -/
theorem C7_geometry_omission_conditions :
    (∀ lfs : List (String × JVal), lfs.lookup "shape" = none →
      extractGeometry (.obj lfs) = .ok none) ∧
    (∀ lfs sfs : List (String × JVal),
      lfs.lookup "shape" = some (.obj sfs) →
      sfs.lookup "links" = none →
      extractGeometry (.obj lfs) = .ok none) ∧
    (∀ (lfs sfs : List (String × JVal)) (ls : List JVal),
      lfs.lookup "shape" = some (.obj sfs) →
      sfs.lookup "links" = some (.arr ls) →
      (∀ l ∈ ls, linkWF l = true) →
      extractGeometry (.obj lfs) =
        .ok (some (serializeCoords (specFlattenLinks ls)))) ∧
    serializeCoords [] = "[]" := by
  exact ⟨fun lfs h => extractGeometry_no_shape h,
    fun lfs sfs h h2 => extractGeometry_no_links h h2,
    fun lfs sfs ls h h2 hwf => extractGeometry_links h h2 hwf,
    rfl⟩

/-- Witness for the amended C7: no shape, shape without links, and
links without points. -/
theorem C7_geometry_omission_conditions_witness :
    extractGeometry (.obj [("description", .str "x")]) = .ok none ∧
    extractGeometry (.obj [("shape", .obj [("length", .num 7)])]) =
      .ok none ∧
    extractGeometry (.obj [("shape", .obj [("links", .arr [])])]) =
      .ok (some "[]") := by
  refine ⟨C7_geometry_omission_conditions.1 [("description", .str "x")] rfl,
    C7_geometry_omission_conditions.2.1 [("shape", .obj [("length", .num 7)])]
      [("length", .num 7)] rfl rfl, ?_⟩
  have h := C7_geometry_omission_conditions.2.2.1
    [("shape", .obj [("links", .arr [])])] [("links", .arr [])] []
    rfl rfl (by simp)
  rw [h]
  rfl

/-- C8: for nonempty batches, `save_to_sqlite` creates a missing target
table with exactly the batch's column set and all its rows, and appends
all rows to an existing table — so the stored rows become the old rows
followed by the batch (prior rows unchanged, count increased by exactly
the batch size) and the existing column set is kept. -/
theorem C8_persist_create_or_append :
    ∀ (db : TrafficDB) (frows : List (Enriched FlowRecord))
      (irows : List (Enriched IncidentRecord)),
      frows ≠ [] → irows ≠ [] →
      (db.traffic_flow = none →
        (save_to_sqlite (some frows) (some irows) db).traffic_flow =
          some ⟨flowCols frows, frows⟩) ∧
      (∀ tb, db.traffic_flow = some tb →
        (save_to_sqlite (some frows) (some irows) db).traffic_flow =
          some ⟨tb.cols, tb.rows ++ frows⟩ ∧
        flowRowCount (save_to_sqlite (some frows) (some irows) db) =
          tb.rows.length + frows.length ∧
        (tb.rows ++ frows).take tb.rows.length = tb.rows) ∧
      (db.traffic_incidents = none →
        (save_to_sqlite (some frows) (some irows) db).traffic_incidents =
          some ⟨incidentCols irows, irows⟩) ∧
      (∀ tb, db.traffic_incidents = some tb →
        (save_to_sqlite (some frows) (some irows) db).traffic_incidents =
          some ⟨tb.cols, tb.rows ++ irows⟩ ∧
        incidentRowCount (save_to_sqlite (some frows) (some irows) db) =
          tb.rows.length + irows.length ∧
        (tb.rows ++ irows).take tb.rows.length = tb.rows) := by
  intro db frows irows hf hi
  have hflen : frows.length > 0 := List.length_pos.mpr hf
  have hilen : irows.length > 0 := List.length_pos.mpr hi
  refine ⟨?_, ?_, ?_, ?_⟩
  · intro hnone
    simp [save_to_sqlite, hnone, hflen, hilen]
    cases db.traffic_incidents <;> simp
  · intro tb htb
    have hsave : (save_to_sqlite (some frows) (some irows) db).traffic_flow =
        some ⟨tb.cols, tb.rows ++ frows⟩ := by
      simp [save_to_sqlite, htb, hflen, hilen]
      cases db.traffic_incidents <;> simp
    refine ⟨hsave, ?_, by simp⟩
    simp [flowRowCount, hsave]
  · intro hnone
    simp [save_to_sqlite, hnone, hflen, hilen]
    cases hdf : db.traffic_flow <;> simp [hdf]
  · intro tb htb
    have hsave :
        (save_to_sqlite (some frows) (some irows) db).traffic_incidents =
        some ⟨tb.cols, tb.rows ++ irows⟩ := by
      simp [save_to_sqlite, htb, hflen, hilen]
      cases hdf : db.traffic_flow <;> simp [hdf]
    refine ⟨hsave, ?_, by simp⟩
    simp [incidentRowCount, hsave]

/-- Witness for C8: creating both tables in an empty store, then
appending a second batch. -/
theorem C8_persist_create_or_append_witness :
    (save_to_sqlite (some [enrichRecord ⟨2026, 1, 1, 0, 0, 0⟩
        defaultFlowRecord])
      (some [enrichRecord ⟨2026, 1, 1, 0, 0, 0⟩ defaultIncidentRecord])
      ⟨none, none⟩).traffic_flow =
      some ⟨flowCols [enrichRecord ⟨2026, 1, 1, 0, 0, 0⟩ defaultFlowRecord],
        [enrichRecord ⟨2026, 1, 1, 0, 0, 0⟩ defaultFlowRecord]⟩ ∧
    (save_to_sqlite (some [enrichRecord ⟨2026, 1, 1, 0, 0, 0⟩
        defaultFlowRecord])
      (some [enrichRecord ⟨2026, 1, 1, 0, 0, 0⟩ defaultIncidentRecord])
      ⟨some ⟨flowCols [], [enrichRecord ⟨2026, 1, 1, 0, 0, 0⟩
          defaultFlowRecord]⟩, none⟩).traffic_flow =
      some ⟨flowCols [], [enrichRecord ⟨2026, 1, 1, 0, 0, 0⟩
          defaultFlowRecord] ++
        [enrichRecord ⟨2026, 1, 1, 0, 0, 0⟩ defaultFlowRecord]⟩ := by
  constructor
  · exact (C8_persist_create_or_append ⟨none, none⟩
      [enrichRecord ⟨2026, 1, 1, 0, 0, 0⟩ defaultFlowRecord]
      [enrichRecord ⟨2026, 1, 1, 0, 0, 0⟩ defaultIncidentRecord]
      (by simp) (by simp)).1 rfl
  · exact ((C8_persist_create_or_append
      ⟨some ⟨flowCols [], [enrichRecord ⟨2026, 1, 1, 0, 0, 0⟩
          defaultFlowRecord]⟩, none⟩
      [enrichRecord ⟨2026, 1, 1, 0, 0, 0⟩ defaultFlowRecord]
      [enrichRecord ⟨2026, 1, 1, 0, 0, 0⟩ defaultIncidentRecord]
      (by simp) (by simp)).2.1
      ⟨flowCols [], [enrichRecord ⟨2026, 1, 1, 0, 0, 0⟩ defaultFlowRecord]⟩
      rfl).1

/-- C9: normalization is total under partial field absence.  On every
entity conforming to the provider schema with any subset of fields
absent (`flowEntityWF` / `incidentEntityWF` leave every field optional
at every level), the per-entity extraction succeeds; an entity with all
fields absent yields the all-default record (empty strings and nulls);
and for a batch of such entities the record loop never aborts. -/
theorem C9_total_under_field_absence :
    (∀ e : JVal, flowEntityWF e = true → ∃ r, parseFlowRecord e = .ok r) ∧
    (∀ e : JVal, incidentEntityWF e = true →
      ∃ r, parseIncidentRecord e = .ok r) ∧
    parseFlowRecord (.obj []) = .ok defaultFlowRecord ∧
    parseIncidentRecord (.obj []) = .ok defaultIncidentRecord ∧
    (∀ rs : List JVal, (∀ e ∈ rs, flowEntityWF e = true) →
      parseFlowRecords rs = .ok (rs.map parseFlowRecordD)) ∧
    (∀ rs : List JVal, (∀ e ∈ rs, incidentEntityWF e = true) →
      parseIncidentRecords rs = .ok (rs.map parseIncidentRecordD)) := by
  exact ⟨fun e h => parseFlowRecord_wf h,
    fun e h => parseIncidentRecord_wf h, rfl, rfl,
    fun rs h => parseFlowRecords_wf h,
    fun rs h => parseIncidentRecords_wf h⟩

/-- Witness for C9: an entity with a `location` whose `shape` is
missing, empty `currentFlow`, and an entity missing everything. -/
theorem C9_total_under_field_absence_witness :
    (∃ r, parseFlowRecord (.obj [("location", .obj []),
      ("currentFlow", .obj [("jamFactor", .num 2)])]) = .ok r) ∧
    (∃ r, parseIncidentRecord (.obj [("incidentDetails",
      .obj [("criticality", .str "low")])]) = .ok r) ∧
    parseFlowRecords [.obj []] = .ok [parseFlowRecordD (.obj [])] := by
  refine ⟨C9_total_under_field_absence.1 _ (by decide),
    C9_total_under_field_absence.2.1 _ (by decide), ?_⟩
  have h := C9_total_under_field_absence.2.2.2.2.1 [.obj []] (by decide)
  simpa using h

/-- C10: a geometry point object lacking `lng` or `lat` is not skipped:
the point loop maps every point to exactly one pair (position
preserved), the pair's missing components are the null value, and an
empty point object contributes `(None, None)` to the flattened
geometry. -/
theorem C10_missing_point_components_null :
    (∀ pts : List JVal, (∀ p ∈ pts, ∃ pfs, p = .obj pfs) →
      pts.mapM pointPair = .ok (pts.map specPointPair) ∧
      (pts.map specPointPair).length = pts.length) ∧
    (∀ pfs : List (String × JVal), pfs.lookup "lng" = none →
      (specPointPair (.obj pfs)).1 = .null) ∧
    (∀ pfs : List (String × JVal), pfs.lookup "lat" = none →
      (specPointPair (.obj pfs)).2 = .null) ∧
    specPointPair (.obj []) = (.null, .null) ∧
    (∀ pts : List JVal, (∀ p ∈ pts, ∃ pfs, p = .obj pfs) →
      extractGeometry (.obj [("shape", .obj [("links",
        .arr [.obj [("points", .arr pts)]])])]) =
        .ok (some (serializeCoords (pts.map specPointPair)))) := by
  refine ⟨fun pts h => ⟨mapM_pointPair h, by simp⟩,
    fun pfs h => by simp [specPointPair, h],
    fun pfs h => by simp [specPointPair, h], rfl, ?_⟩
  intro pts h
  have hwf : linkWF (.obj [("points", .arr pts)]) = true := by
    simp only [linkWF, List.lookup, beq_self_eq_true]
    apply List.all_eq_true.mpr
    intro p hp
    obtain ⟨pfs, rfl⟩ := h p hp
    rfl
  have := @extractGeometry_links
    [("shape", .obj [("links", .arr [.obj [("points", .arr pts)]])])]
    [("links", .arr [.obj [("points", .arr pts)]])]
    [.obj [("points", .arr pts)]] rfl rfl
    (by intro l hl; rw [List.mem_singleton] at hl; subst hl; exact hwf)
  rw [this]
  simp [specFlattenLinks, specLinkPoints, List.lookup]

/-- Witness for C10 at a two-point link whose second point is empty. -/
theorem C10_missing_point_components_null_witness :
    [JVal.obj [("lng", .num 1), ("lat", .num 2)],
      JVal.obj []].mapM pointPair =
      .ok [(JVal.num 1, JVal.num 2), (JVal.null, JVal.null)] ∧
    extractGeometry (.obj [("shape", .obj [("links",
      .arr [.obj [("points", .arr [.obj [("lng", .num 1), ("lat", .num 2)],
        .obj []])]])])]) =
      .ok (some "[(1, 2), (None, None)]") := by
  have hobj : ∀ p ∈ [JVal.obj [("lng", .num 1), ("lat", .num 2)],
      JVal.obj ([] : List (String × JVal))], ∃ pfs, p = JVal.obj pfs := by
    intro p hp
    rw [List.mem_cons] at hp
    rcases hp with rfl | hp
    · exact ⟨_, rfl⟩
    · rw [List.mem_singleton] at hp
      subst hp
      exact ⟨_, rfl⟩
  constructor
  · have h := (C10_missing_point_components_null.1
      [JVal.obj [("lng", .num 1), ("lat", .num 2)], JVal.obj []] hobj).1
    rw [h]
    rfl
  · have h := C10_missing_point_components_null.2.2.2.2
      [JVal.obj [("lng", .num 1), ("lat", .num 2)], JVal.obj []] hobj
    rw [h]
    rfl

/-- Computation of one run from the fetch and parse outcomes: when both
fetches return a value and both parses succeed, the run saves the two
enriched batches. -/
theorem run_main_eq {t : Timestamp} {fNet iNet : Except PyErr HttpResponse}
    {db : TrafficDB} {fb ib : JVal} {fdf : Option (List FlowRecord)}
    {idf : Option (List IncidentRecord)}
    (h1 : (fetch_traffic_flow fNet).1 = .ok fb)
    (h2 : (fetch_traffic_incidents iNet).1 = .ok ib)
    (h3 : parse_traffic_flow_to_dataframe fb = .ok fdf)
    (h4 : parse_incidents_to_dataframe ib = .ok idf) :
    run_main t fNet iNet db =
      .ok (save_to_sqlite (enrichFlowBatch t fdf) (enrichIncidentBatch t idf)
        db) := by
  simp only [run_main, h1, h2, h3, h4, exceptOkBind, exceptPureEq]

/-- Persisting with an absent flow batch leaves `traffic_flow`
untouched. -/
theorem save_skipped_flow_unchanged
    (idf : Option (List (Enriched IncidentRecord))) (db : TrafficDB) :
    (save_to_sqlite none idf db).traffic_flow = db.traffic_flow := by
  cases idf with
  | none => rfl
  | some rows =>
    simp only [save_to_sqlite]
    by_cases h : rows.length > 0
    · rw [if_pos h]
      cases db.traffic_incidents <;> rfl
    · rw [if_neg h]

/-- Persisting with an absent incident batch leaves `traffic_incidents`
untouched. -/
theorem save_skipped_incidents_unchanged
    (fdf : Option (List (Enriched FlowRecord))) (db : TrafficDB) :
    (save_to_sqlite fdf none db).traffic_incidents =
      db.traffic_incidents := by
  cases fdf with
  | none => rfl
  | some rows =>
    simp only [save_to_sqlite]
    by_cases h : rows.length > 0
    · rw [if_pos h]
      cases db.traffic_flow <;> rfl
    · rw [if_neg h]

/-- Persisting a nonempty incident batch (with no flow batch) grows the
incident row count by exactly the batch size. -/
theorem save_incidents_append_count
    {rows : List (Enriched IncidentRecord)} (db : TrafficDB)
    (h : rows ≠ []) :
    incidentRowCount (save_to_sqlite none (some rows) db) =
      incidentRowCount db + rows.length := by
  have hlen : rows.length > 0 := List.length_pos.mpr h
  simp only [save_to_sqlite]
  rw [if_pos hlen]
  cases hdb : db.traffic_incidents with
  | none => simp [incidentRowCount, hdb]
  | some tb => simp [incidentRowCount, hdb]

/-- Persisting a nonempty flow batch (with no incident batch) grows the
flow row count by exactly the batch size. -/
theorem save_flow_append_count
    {rows : List (Enriched FlowRecord)} (db : TrafficDB) (h : rows ≠ []) :
    flowRowCount (save_to_sqlite (some rows) none db) =
      flowRowCount db + rows.length := by
  have hlen : rows.length > 0 := List.length_pos.mpr h
  simp only [save_to_sqlite]
  rw [if_pos hlen]
  cases hdb : db.traffic_flow with
  | none => simp [flowRowCount, hdb]
  | some tb => simp [flowRowCount, hdb]

/-- C4 counterexample: a fetch failure of the network-error kind in one
data kind DOES prevent collection and persistence of the other kind.
Here the incidents response holds two perfectly good results, yet the
exception raised inside the flow fetch propagates out of `main`
unhandled: the run produces no database state at all, so 0 incident
rows are persisted, contradicting the claimed propagation policy. -/
theorem C4_network_error_blocks_other_kind_counterexample :
    run_main ⟨2026, 1, 1, 12, 0, 0⟩
      (.error (.connectionError "connection refused"))
      (.ok ⟨200, .obj [("results", .arr [.obj [("incidentId", .str "a")],
        .obj []])]⟩) ⟨none, none⟩ =
      .error (.connectionError "connection refused") := rfl

/-- C4 (amended): a failure of one data kind that is *surfaced as an
absent result* — a non-200 HTTP status, or a payload lacking `results`
— never prevents collection and persistence of the other kind: the run
completes without an unhandled error, leaves the failed kind's table
untouched and adds exactly N rows for the succeeding kind (in either
direction; in particular, flow fetch returning a failure with incidents
succeeding with 2 results persists 0 flow rows and 2 incident rows).
But a fetch failure that raises an exception (a network error) aborts
the whole run before anything is persisted. -/
theorem C4_surfaced_failure_does_not_block_other_kind :
    (∀ (t : Timestamp) (st : Nat) (body : JVal)
       (ifs : List (String × JVal)) (rs : List JVal) (db : TrafficDB),
      st ≠ 200 →
      ifs.lookup "results" = some (.arr rs) →
      (∀ e ∈ rs, incidentEntityWF e = true) → rs ≠ [] →
      ∃ db', run_main t (.ok ⟨st, body⟩) (.ok ⟨200, .obj ifs⟩) db =
          .ok db' ∧
        db'.traffic_flow = db.traffic_flow ∧
        incidentRowCount db' = incidentRowCount db + rs.length) ∧
    (∀ (t : Timestamp) (ffs ifs : List (String × JVal)) (rs : List JVal)
       (db : TrafficDB),
      ffs.lookup "results" = none →
      ifs.lookup "results" = some (.arr rs) →
      (∀ e ∈ rs, incidentEntityWF e = true) → rs ≠ [] →
      ∃ db', run_main t (.ok ⟨200, .obj ffs⟩) (.ok ⟨200, .obj ifs⟩) db =
          .ok db' ∧
        db'.traffic_flow = db.traffic_flow ∧
        incidentRowCount db' = incidentRowCount db + rs.length) ∧
    (∀ (t : Timestamp) (st : Nat) (body : JVal)
       (ffs : List (String × JVal)) (rs : List JVal) (db : TrafficDB),
      st ≠ 200 →
      ffs.lookup "results" = some (.arr rs) →
      (∀ e ∈ rs, flowEntityWF e = true) → rs ≠ [] →
      ∃ db', run_main t (.ok ⟨200, .obj ffs⟩) (.ok ⟨st, body⟩) db =
          .ok db' ∧
        db'.traffic_incidents = db.traffic_incidents ∧
        flowRowCount db' = flowRowCount db + rs.length) ∧
    (∀ (t : Timestamp) (ffs ifs : List (String × JVal)) (rs : List JVal)
       (db : TrafficDB),
      ifs.lookup "results" = none →
      ffs.lookup "results" = some (.arr rs) →
      (∀ e ∈ rs, flowEntityWF e = true) → rs ≠ [] →
      ∃ db', run_main t (.ok ⟨200, .obj ffs⟩) (.ok ⟨200, .obj ifs⟩) db =
          .ok db' ∧
        db'.traffic_incidents = db.traffic_incidents ∧
        flowRowCount db' = flowRowCount db + rs.length) ∧
    (∀ (t : Timestamp) (e : PyErr) (iNet : Except PyErr HttpResponse)
       (db : TrafficDB),
      run_main t (.error e) iNet db = .error e) := by
  have hincEnr : ∀ (t : Timestamp) (rs : List JVal), rs ≠ [] →
      enrichIncidentBatch t (some (rs.map parseIncidentRecordD)) =
        some ((rs.map parseIncidentRecordD).map (enrichRecord t)) := by
    intro t rs hne
    simp only [enrichIncidentBatch]
    rw [if_pos (by
      simp only [List.length_map]
      exact List.length_pos.mpr hne)]
  have hincSide : ∀ (t : Timestamp) (fNet : Except PyErr HttpResponse)
      (fb : JVal) (ifs : List (String × JVal)) (rs : List JVal)
      (db : TrafficDB),
      (fetch_traffic_flow fNet).1 = .ok fb →
      parse_traffic_flow_to_dataframe fb = .ok none →
      ifs.lookup "results" = some (.arr rs) →
      (∀ e ∈ rs, incidentEntityWF e = true) → rs ≠ [] →
      ∃ db', run_main t fNet (.ok ⟨200, .obj ifs⟩) db = .ok db' ∧
        db'.traffic_flow = db.traffic_flow ∧
        incidentRowCount db' = incidentRowCount db + rs.length := by
    intro t fNet fb ifs rs db hf hpf hres hwf hne
    have hi : (fetch_traffic_incidents (.ok ⟨200, .obj ifs⟩)).1 =
        .ok (.obj ifs) := by
      simp [fetch_traffic_incidents]
    have hrun := @run_main_eq t fNet (.ok ⟨200, .obj ifs⟩) db fb (.obj ifs)
      none (some (rs.map parseIncidentRecordD)) hf hi hpf
      (parse_incidents_results hres hwf)
    rw [hincEnr t rs hne] at hrun
    simp only [enrichFlowBatch] at hrun
    refine ⟨_, hrun, save_skipped_flow_unchanged _ db, ?_⟩
    rw [save_incidents_append_count db (by
      simp only [ne_eq, List.map_eq_nil_iff]
      exact hne)]
    simp
  have hflowSide : ∀ (t : Timestamp) (iNet : Except PyErr HttpResponse)
      (ib : JVal) (ffs : List (String × JVal)) (rs : List JVal)
      (db : TrafficDB),
      (fetch_traffic_incidents iNet).1 = .ok ib →
      parse_incidents_to_dataframe ib = .ok none →
      ffs.lookup "results" = some (.arr rs) →
      (∀ e ∈ rs, flowEntityWF e = true) → rs ≠ [] →
      ∃ db', run_main t (.ok ⟨200, .obj ffs⟩) iNet db = .ok db' ∧
        db'.traffic_incidents = db.traffic_incidents ∧
        flowRowCount db' = flowRowCount db + rs.length := by
    intro t iNet ib ffs rs db hi hpi hres hwf hne
    have hf : (fetch_traffic_flow (.ok ⟨200, .obj ffs⟩)).1 =
        .ok (.obj ffs) := by
      simp [fetch_traffic_flow]
    have hrun := @run_main_eq t (.ok ⟨200, .obj ffs⟩) iNet db (.obj ffs) ib
      (some (rs.map parseFlowRecordD)) none hf hi
      (parse_flow_results hres hwf) hpi
    simp only [enrichFlowBatch, enrichIncidentBatch] at hrun
    refine ⟨_, hrun, save_skipped_incidents_unchanged _ db, ?_⟩
    rw [save_flow_append_count db (by
      simp only [ne_eq, List.map_eq_nil_iff]
      exact hne)]
    simp
  refine ⟨?_, ?_, ?_, ?_, fun t e iNet db => rfl⟩
  · intro t st body ifs rs db hst hres hwf hne
    exact hincSide t (.ok ⟨st, body⟩) .null ifs rs db
      (by simp [fetch_traffic_flow, hst]) rfl hres hwf hne
  · intro t ffs ifs rs db hffs hres hwf hne
    exact hincSide t (.ok ⟨200, .obj ffs⟩) (.obj ffs) ifs rs db
      (by simp [fetch_traffic_flow]) (parse_flow_no_results hffs)
      hres hwf hne
  · intro t st body ffs rs db hst hres hwf hne
    exact hflowSide t (.ok ⟨st, body⟩) .null ffs rs db
      (by simp [fetch_traffic_incidents, hst]) rfl hres hwf hne
  · intro t ffs ifs rs db hifs hres hwf hne
    exact hflowSide t (.ok ⟨200, .obj ifs⟩) (.obj ifs) ffs rs db
      (by simp [fetch_traffic_incidents]) (parse_incidents_no_results hifs)
      hres hwf hne

/-- Witness for the amended C4: against an empty store, HTTP 500 on
flow with two incident results persists exactly the two incident rows;
symmetrically, HTTP 500 on incidents with two flow results persists
exactly the two flow rows. -/
theorem C4_surfaced_failure_does_not_block_other_kind_witness :
    (∃ db', run_main ⟨2026, 1, 1, 12, 0, 0⟩ (.ok ⟨500, .null⟩)
        (.ok ⟨200, .obj [("results", .arr [.obj [("incidentId", .str "a")],
          .obj []])]⟩) ⟨none, none⟩ = .ok db' ∧
      db'.traffic_flow = none ∧ incidentRowCount db' = 2) ∧
    (∃ db', run_main ⟨2026, 1, 1, 12, 0, 0⟩
        (.ok ⟨200, .obj [("results", .arr [.obj [("currentFlow",
          .obj [("speed", .num 45)])], .obj []])]⟩)
        (.ok ⟨500, .null⟩) ⟨none, none⟩ = .ok db' ∧
      db'.traffic_incidents = none ∧ flowRowCount db' = 2) := by
  constructor
  · obtain ⟨db', h1, h2, h3⟩ :=
      C4_surfaced_failure_does_not_block_other_kind.1
        ⟨2026, 1, 1, 12, 0, 0⟩ 500 .null
        [("results", .arr [.obj [("incidentId", .str "a")], .obj []])]
        [.obj [("incidentId", .str "a")], .obj []] ⟨none, none⟩
        (by decide) rfl (by decide) (by simp)
    exact ⟨db', h1, h2, by simpa [incidentRowCount] using h3⟩
  · obtain ⟨db', h1, h2, h3⟩ :=
      C4_surfaced_failure_does_not_block_other_kind.2.2.1
        ⟨2026, 1, 1, 12, 0, 0⟩ 500 .null
        [("results", .arr [.obj [("currentFlow", .obj [("speed", .num 45)])],
          .obj []])]
        [.obj [("currentFlow", .obj [("speed", .num 45)])], .obj []]
        ⟨none, none⟩ (by decide) rfl (by decide) (by simp)
    exact ⟨db', h1, h2, by simpa [flowRowCount] using h3⟩
